import Mathlib

/-!
Verification of the startup / validation / routing layer of the XAI API
service (`api/src/main.py`).  The service wraps pre-trained models and
third-party explainability libraries behind REST endpoints.  We embed the
repository logic (configuration checks, startup resource loading,
request validation, tensor-rank canonicalization, handler control flow and
HTTP status mapping) as executable Lean definitions and prove the frozen
claims about them.  External library calls (pickle, sklearn, SHAP, LIME,
matplotlib, the vision toolkit) are modelled as opaque deterministic
functions bundled in a `World` / `Ext` record; the repository code is
translated statement by statement.
-/

set_option autoImplicit false

namespace XaiApi

/-- A numpy-style array: its shape together with its row-major flattened
contents.  Only the shape and element membership matter to the claims, so
scalars are modelled as `Int`. -/
structure Tensor where
  shape : List Nat
  data : List Int
deriving Repr, DecidableEq

/-- The Python exceptions the handlers distinguish in their `except`
clauses. -/
inductive PyErr where
  | valueError (msg : String)
  | indexError
  | zeroDivisionError
deriving Repr, DecidableEq

/-- The process environment: the four path-valued variables the service
reads with `os.getenv` (a variable may be unset). -/
structure Env where
  banking_model_path : Option String
  banking_data_path : Option String
  vision_model_path : Option String
  vision_data_path : Option String
deriving Repr, DecidableEq

/-- The world outside the code of the repository, seen at startup: the
filesystem existence predicate and the external deserializers/loaders
(`pickle.load`, `load_models`, `preprocess_dataset`, and the
`pd.read_csv` + `preprocess_data` + label-column-split pipeline, whose
result we model as rows of (feature vector, fraud label)).  All are
deterministic functions of the path, as the libraries are for fixed file
contents. -/
structure World where
  pathExists : String → Bool
  pickleLoad : String → Nat
  load_models : String → Nat
  preprocess_dataset : String → List Tensor
  bankingRows : String → List (List Int × Bool)

/-- The process-wide resource cache populated by `load_resources`:
tabular model, vision model, vision dataset, the train/test partitions of
the banking data, and the vision data path (used later by the SHAP vision
endpoints). -/
structure Resources where
  banking_model : Nat
  model : Nat
  dataset : List Tensor
  X_train : List (List Int)
  X_test : List (List Int)
  y_train : List Bool
  y_test : List Bool
  vision_data_path : String
deriving Repr, DecidableEq

/-- Truthiness of `os.getenv` values as used by `if not os.getenv(var)`: an unset
variable and the empty string are both falsy. -/
def truthy : Option String → Bool
  | none => false
  | some s => s ≠ ""

/-- The module-level required-variable check: `if not os.getenv(var):
raise ValueError(...)`, yielding the path when the variable is set. -/
def requireVar (v : Option String) (name : String) : Except String String :=
  match v with
  | none => .error ("Environment variable " ++ name ++ " is not set.")
  | some s =>
      if s = "" then .error ("Environment variable " ++ name ++ " is not set.")
      else .ok s

/-- Modelled from the spec: `sklearn.model_selection.train_test_split`
with `test_size=0.2, stratify=y` is external to this repository.  It is
modelled as a stratified 80/20 splitter that is a deterministic function
of the data and of the effective seed; `random_state = none` means the
library draws its seed from ambient process randomness, which is the
`ambient` argument. -/
def train_test_split (X : List (List Int)) (y : List Bool)
    (random_state : Option Nat) (ambient : Nat) :
    List (List Int) × List (List Int) × List Bool × List Bool :=
  let seed := random_state.getD ambient
  let rows := X.zip y
  let pos := rows.filter (fun r => r.2)
  let neg := rows.filter (fun r => !r.2)
  let rot := fun (g : List (List Int × Bool)) =>
    let k := if g.length = 0 then 0 else seed % g.length
    g.drop k ++ g.take k
  let posR := rot pos
  let negR := rot neg
  let nTestP := posR.length / 5
  let nTestN := negR.length / 5
  let test := posR.take nTestP ++ negR.take nTestN
  let train := posR.drop nTestP ++ negR.drop nTestN
  (train.map (fun r => r.1), test.map (fun r => r.1),
   train.map (fun r => r.2), test.map (fun r => r.2))

/-- Process startup: the module-level `required_vars` loop (lines 48-51)
followed by the `load_resources` startup hook (lines 61-81).  Any
`.error` outcome is a fatal startup failure: uvicorn aborts before the
service accepts a request, so no `Resources` value ever reaches a
handler. -/
def startup (env : Env) (w : World) (ambient : Nat) : Except String Resources :=
  match requireVar (env.banking_model_path) "BANKING_MODEL_PATH" with
  | .error m => .error m
  | .ok bmp =>
  match requireVar (env.banking_data_path) "BANKING_DATA_PATH" with
  | .error m => .error m
  | .ok bdp =>
  match requireVar (env.vision_model_path) "VISION_MODEL_PATH" with
  | .error m => .error m
  | .ok vmp =>
  match requireVar (env.vision_data_path) "VISION_DATA_PATH" with
  | .error m => .error m
  | .ok vdp =>
  if !(w.pathExists bmp) || !(w.pathExists bdp) then
    .error "Banking Model or dataset not found."
  else if !(w.pathExists vmp) || !(w.pathExists vdp) then
    .error "Vision Model or dataset not found."
  else
    let banking_model := w.pickleLoad bmp
    let model := w.load_models vmp
    let dataset := w.preprocess_dataset vdp
    let rows := w.bankingRows bdp
    let X := rows.map (fun r => r.1)
    let y := rows.map (fun r => r.2)
    let split := train_test_split X y (some 42) ambient
    .ok ⟨banking_model, model, dataset, split.1, split.2.1, split.2.2.1,
         split.2.2.2, vdp⟩

/-- The train/test partitions observable after a startup attempt: `none`
when startup aborted. -/
def partitionsOf (r : Except String Resources) :
    Option (List (List Int) × List (List Int) × List Bool × List Bool) :=
  match r with
  | .error _ => none
  | .ok res => some (res.X_train, res.X_test, res.y_train, res.y_test)

/-- A required path variable is unset, or it names a path that does not
exist on disk. -/
def unsetOrMissing (v : Option String) (w : World) : Prop :=
  v = none ∨ ∃ p, v = some p ∧ w.pathExists p = false

theorem requireVar_ok {v : Option String} {name p : String}
    (h : requireVar v name = .ok p) : v = some p := by
  cases v with
  | none => simp [requireVar] at h
  | some s =>
      simp only [requireVar] at h
      by_cases hs : s = "" <;> simp [hs] at h
      simp [h]

theorem startup_ok_paths {env : Env} {w : World} {a : Nat} {r : Resources}
    (h : startup env w a = .ok r) :
    (∃ p, env.banking_model_path = some p ∧ w.pathExists p = true) ∧
    (∃ p, env.banking_data_path = some p ∧ w.pathExists p = true) ∧
    (∃ p, env.vision_model_path = some p ∧ w.pathExists p = true) ∧
    (∃ p, env.vision_data_path = some p ∧ w.pathExists p = true) := by
  unfold startup at h
  split at h
  · exact absurd h (by simp)
  rename_i bmp h1
  split at h
  · exact absurd h (by simp)
  rename_i bdp h2
  split at h
  · exact absurd h (by simp)
  rename_i vmp h3
  split at h
  · exact absurd h (by simp)
  rename_i vdp h4
  split at h
  · exact absurd h (by simp)
  rename_i e1
  split at h
  · exact absurd h (by simp)
  rename_i e2
  simp only [Bool.or_eq_true, Bool.not_eq_true', not_or,
    Bool.not_eq_false] at e1 e2
  exact ⟨⟨bmp, requireVar_ok h1, e1.1⟩, ⟨bdp, requireVar_ok h2, e1.2⟩,
         ⟨vmp, requireVar_ok h3, e2.1⟩, ⟨vdp, requireVar_ok h4, e2.2⟩⟩

/-- C1: if any of the four required environment variables is unset, or
the path it names does not exist on disk, process startup aborts with a
fatal error: `startup` never yields a `Resources` value, and handlers
(which all consume a `Resources` value) are never reached, so the
service never begins accepting requests. -/
theorem C1_startup_aborts (env : Env) (w : World) (a : Nat)
    (h : unsetOrMissing env.banking_model_path w ∨
         unsetOrMissing env.banking_data_path w ∨
         unsetOrMissing env.vision_model_path w ∨
         unsetOrMissing env.vision_data_path w) :
    (startup env w a).isOk = false := by
  cases hs : startup env w a with
  | error m => rfl
  | ok r =>
      exfalso
      obtain ⟨⟨p1, hp1, he1⟩, ⟨p2, hp2, he2⟩, ⟨p3, hp3, he3⟩, ⟨p4, hp4, he4⟩⟩ :=
        startup_ok_paths hs
      rcases h with h | h | h | h <;>
        rcases h with h | ⟨q, hq, he⟩ <;>
          simp_all

/-- An environment with `VISION_DATA_PATH` unset, for exercising C1. -/
def envMissing : Env :=
  ⟨some "bm.pkl", some "bd.csv", some "vm.pt", none⟩

/-- A concrete world in which every path exists and the loaders return
fixed artifacts. -/
def wEx : World where
  pathExists := fun _ => true
  pickleLoad := fun _ => 1
  load_models := fun _ => 2
  preprocess_dataset := fun _ => [⟨[2, 2], [0, 1, 2, 3]⟩]
  bankingRows := fun _ =>
    [([0], true), ([1], false), ([2], true), ([3], false), ([4], true),
     ([5], false), ([6], true), ([7], false), ([8], true), ([9], false)]

theorem C1_startup_aborts_witness :
    (unsetOrMissing envMissing.banking_model_path wEx ∨
     unsetOrMissing envMissing.banking_data_path wEx ∨
     unsetOrMissing envMissing.vision_model_path wEx ∨
     unsetOrMissing envMissing.vision_data_path wEx) ∧
    (startup envMissing wEx 0).isOk = false :=
  ⟨Or.inr (Or.inr (Or.inr (Or.inl rfl))),
   C1_startup_aborts envMissing wEx 0
     (Or.inr (Or.inr (Or.inr (Or.inl rfl))))⟩

/-- C2: the startup loader is reproducible.  Two executions over the same
environment, filesystem and file contents produce identical train/test
partitions, whatever seeds the ambient process randomness would have
supplied, because the split is invoked with the fixed `random_state = 42`
and therefore never consults ambient randomness. -/
theorem C2_split_reproducible (env : Env) (w : World) (a1 a2 : Nat) :
    partitionsOf (startup env w a1) = partitionsOf (startup env w a2) := rfl

/-! ## Tensor indexing and rank canonicalization -/

/-- Python sequence indexing `dataset[i]`: a negative index counts from
the end; an index out of range after that adjustment raises
`IndexError`. -/
def pyIndex (xs : List Tensor) (i : Int) : Except PyErr Tensor :=
  let n : Int := xs.length
  let j := if i < 0 then i + n else i
  if 0 ≤ j then
    match xs.get? j.toNat with
    | some t => .ok t
    | none => .error .indexError
  else .error .indexError

/-- Numpy `x[0]` on the leading axis: drops the first shape entry and
keeps the first block of the flattened contents.  (Used after the batch
dimension is known to be present.) -/
def npGet0 (t : Tensor) : Tensor :=
  ⟨t.shape.drop 1, t.data.take ((t.shape.drop 1).foldl (· * ·) 1)⟩

/-- Rank canonicalization of `get_sample_components` (lines 350-357):
2-D gains batch and channel axes, 3-D gains a batch axis, 4-D passes
through, any other rank raises `ValueError`. -/
def sampleComponentsReshape (t : Tensor) : Except PyErr Tensor :=
  match t.shape with
  | [h, w] => .ok ⟨[1, 1, h, w], t.data⟩
  | [c, h, w] => .ok ⟨[1, c, h, w], t.data⟩
  | [b, c, h, w] => .ok ⟨[b, c, h, w], t.data⟩
  | _ => .error (.valueError "Unexpected input shape")

/-- Rank canonicalization of `get_integrated_gradients` (lines 412-419),
textually the same rule as `get_sample_components`. -/
def integratedGradientsReshape (t : Tensor) : Except PyErr Tensor :=
  match t.shape with
  | [h, w] => .ok ⟨[1, 1, h, w], t.data⟩
  | [c, h, w] => .ok ⟨[1, c, h, w], t.data⟩
  | [b, c, h, w] => .ok ⟨[b, c, h, w], t.data⟩
  | _ => .error (.valueError "Unexpected input shape")

/-- Rank normalization of `get_deep_lift` (lines 465-475): 2-D gains a
leading channel axis only (`np.expand_dims(_, axis=0)`); a 3-D input
passes through when its leading axis is 1 and is otherwise truncated to
its first channel (`sample_input[:1]`); a 4-D input is reduced to its
first channel of its first batch element (`sample_input[0, :1, :, :]`, an
`IndexError` when the batch axis is empty); any other rank raises
`ValueError`. -/
def deepLiftReshape (t : Tensor) : Except PyErr Tensor :=
  match t.shape with
  | [h, w] => .ok ⟨[1, h, w], t.data⟩
  | [c, h, w] =>
      if c = 1 then .ok ⟨[c, h, w], t.data⟩
      else .ok ⟨[min 1 c, h, w], t.data.take (min 1 c * (h * w))⟩
  | [b, c, h, w] =>
      if b = 0 then .error .indexError
      else .ok ⟨[min 1 c, h, w], t.data.take (min 1 c * (h * w))⟩
  | _ => .error (.valueError "Unexpected input shape")

/-- Rank normalization of `get_shap_single_sample` (lines 525-532): 2-D
gains a leading channel axis, 3-D passes through, any other rank raises
`ValueError`. -/
def shapSingleReshape (t : Tensor) : Except PyErr Tensor :=
  match t.shape with
  | [h, w] => .ok ⟨[1, h, w], t.data⟩
  | [_, _, _] => .ok t
  | _ => .error (.valueError "Unexpected sample_input shape")

/-- Reshape step of `get_convolution_features` (lines 287-299): compute
the element count, take the truncated square root as the height (for the
element counts arising here this equals the floor square root that
`int(total ** 0.5)` computes), derive the width, require the product to
match (else `ValueError`), and reshape to `[1, 1, height, width]`.  An
empty input makes the width computation divide by zero. -/
def convFeaturesReshape (t : Tensor) : Except PyErr Tensor :=
  let total := t.shape.foldl (· * ·) 1
  if total = 0 then .error .zeroDivisionError
  else
    let height := Nat.sqrt total
    let width := total / height
    if height * width ≠ total then
      .error (.valueError "Cannot reshape array into a valid image shape.")
    else .ok ⟨[1, 1, height, width], t.data⟩

/-- Modelled from the spec: the uniform canonicalization rule the spec
asserts for the vision handlers ("2-D samples gain a leading channel and
batch dimension; 3-D samples gain a leading batch dimension; 4-D samples
pass through; any other rank is a fatal shape error"), stated as its own
definition so the actual reshapes of the handlers can be compared against
it. -/
def specCanonicalize (t : Tensor) : Except PyErr Tensor :=
  match t.shape with
  | [h, w] => .ok ⟨[1, 1, h, w], t.data⟩
  | [c, h, w] => .ok ⟨[1, c, h, w], t.data⟩
  | [b, c, h, w] => .ok ⟨[b, c, h, w], t.data⟩
  | _ => .error (.valueError "Unexpected input shape")

/-- C3 counterexample: the canonicalization rule is not uniform across
the vision handlers.  On the 2-D sample `⟨[2, 2], [0, 1, 2, 3]⟩` the
deep-lift handler produces a 3-D tensor `[1, 2, 2]` (leading channel
only), not the `[1, 1, 2, 2]` that the claimed uniform rule (a leading
channel and a leading batch dimension) requires. -/
theorem C3_counterexample :
    deepLiftReshape ⟨[2, 2], [0, 1, 2, 3]⟩ = .ok ⟨[1, 2, 2], [0, 1, 2, 3]⟩ ∧
    deepLiftReshape ⟨[2, 2], [0, 1, 2, 3]⟩ ≠
      specCanonicalize ⟨[2, 2], [0, 1, 2, 3]⟩ ∧
    specCanonicalize ⟨[2, 2], [0, 1, 2, 3]⟩ =
      .ok ⟨[1, 1, 2, 2], [0, 1, 2, 3]⟩ := by
  refine ⟨rfl, ?_, rfl⟩
  simp [deepLiftReshape, specCanonicalize]

/-- C3 amended: the sample-components and integrated-gradients handlers
follow the uniform canonicalization rule exactly; the deep-lift handler
instead normalizes to a single-channel 3-D tensor — a 2-D sample gains
only a leading channel axis, a single-channel 3-D sample passes through,
a multi-channel 3-D sample is truncated to its first channel, a 4-D
sample is reduced to the first channel of its first batch element, and any
rank other than 2, 3 or 4 raises a shape error. -/
theorem C3_amended_canonicalization :
    (∀ t, sampleComponentsReshape t = specCanonicalize t) ∧
    (∀ t, integratedGradientsReshape t = specCanonicalize t) ∧
    (∀ h w d, deepLiftReshape ⟨[h, w], d⟩ = .ok ⟨[1, h, w], d⟩) ∧
    (∀ h w d, deepLiftReshape ⟨[1, h, w], d⟩ = .ok ⟨[1, h, w], d⟩) ∧
    (∀ c h w d, deepLiftReshape ⟨[c + 2, h, w], d⟩ =
        .ok ⟨[1, h, w], d.take (h * w)⟩) ∧
    (∀ b c h w d, deepLiftReshape ⟨[b + 1, c + 1, h, w], d⟩ =
        .ok ⟨[1, h, w], d.take (h * w)⟩) ∧
    (∀ d, deepLiftReshape ⟨[], d⟩ =
        .error (.valueError "Unexpected input shape")) ∧
    (∀ a d, deepLiftReshape ⟨[a], d⟩ =
        .error (.valueError "Unexpected input shape")) ∧
    (∀ a b c e f rest d, deepLiftReshape ⟨a :: b :: c :: e :: f :: rest, d⟩ =
        .error (.valueError "Unexpected input shape")) := by
  refine ⟨fun t => rfl, fun t => rfl, fun h w d => rfl, fun h w d => rfl,
          ?_, ?_, fun d => rfl, fun a d => rfl, fun a b c e f rest d => rfl⟩
  · intro c h w d
    simp [deepLiftReshape]
  · intro b c h w d
    simp [deepLiftReshape]

/-- C10: a 2-D sample of shape `(28, 28)` fetched by the
convolution-features handler is canonicalized to shape `(1, 1, 28, 28)`
(contents unchanged) before being handed to the feature-visualization
routine. -/
theorem C10_conv_features_canonicalization (t : Tensor)
    (h : t.shape = [28, 28]) :
    convFeaturesReshape t = .ok ⟨[1, 1, 28, 28], t.data⟩ := by
  obtain ⟨s, d⟩ := t
  simp only at h
  subst h
  have hs : Nat.sqrt 784 = 28 := by
    rw [show (784 : ℕ) = 28 * 28 from rfl]
    exact Nat.sqrt_eq 28
  simp [convFeaturesReshape, hs]

theorem C10_conv_features_witness :
    convFeaturesReshape ⟨[28, 28], List.replicate 784 5⟩ =
      .ok ⟨[1, 1, 28, 28], List.replicate 784 5⟩ :=
  C10_conv_features_canonicalization ⟨[28, 28], List.replicate 784 5⟩ rfl

/-! ## Banking request validators (`LimeRequest`, `ShapRequest`) -/

/-- The body of a `LimeRequest` (line 85). -/
structure LimeRequestData where
  row_index : Int
deriving Repr, DecidableEq

/-- The body of a `ShapRequest` (lines 96-97): a plot-type string and an
optional data-point index. -/
structure ShapRequestData where
  plot_type : String
  data_point : Option Int
deriving Repr, DecidableEq

/-- Validator `LimeRequest.validate_row_index` (lines 87-92): reject unless
`0 <= row_index < len(X_test)`.  Runs at request-parse time, before the
handler body. -/
def validate_row_index (req : LimeRequestData) (nTest : Nat) :
    Except String LimeRequestData :=
  if req.row_index < 0 ∨ req.row_index ≥ (nTest : Int) then
    .error ("Row index must be between 0 and " ++ toString ((nTest : Int) - 1))
  else .ok req

/-- Validator `ShapRequest.validate_request` (lines 99-108): only the waterfall
plot type triggers any validation — its `data_point` must be present and
in `[0, len(X_test))`.  Every other `plot_type` string is accepted
unchanged. -/
def validate_request (req : ShapRequestData) (nTest : Nat) :
    Except String ShapRequestData :=
  if req.plot_type = "waterfall" then
    match req.data_point with
    | none => .error "For the waterfall plot_type, data_point must be specified."
    | some dp =>
        if dp < 0 ∨ dp ≥ (nTest : Int) then
          .error ("Data point must be between 0 and " ++ toString ((nTest : Int) - 1))
        else .ok req
  else .ok req

/-- C7: LIME request validation accepts a request exactly when
`0 <= row_index < len(X_test)`; in particular `row_index = -1` and
`row_index = len(X_test)` are rejected at validation time, before the
handler (and hence any computation) runs. -/
theorem C7_lime_validation (i : Int) (n : Nat) :
    (validate_row_index ⟨i⟩ n).isOk = true ↔ 0 ≤ i ∧ i < (n : Int) := by
  unfold validate_row_index
  dsimp only
  split <;> rename_i hc <;> simp [Except.isOk, Except.toBool] <;> omega

/-- C8: for `plot_type = "waterfall"`, validation accepts the request
exactly when `data_point` is present and lies in `[0, len(X_test))`; a
null or out-of-range `data_point` is rejected. -/
theorem C8_waterfall_validation (dp : Option Int) (n : Nat) :
    (validate_request ⟨"waterfall", dp⟩ n).isOk = true ↔
      ∃ x, dp = some x ∧ 0 ≤ x ∧ x < (n : Int) := by
  cases dp with
  | none => simp [validate_request, Except.isOk, Except.toBool]
  | some x =>
      unfold validate_request
      dsimp only
      rw [if_pos rfl]
      split <;> rename_i hc <;> simp [Except.isOk, Except.toBool] <;> omega

/-! ## Route handlers

Each handler is embedded in state-passing style over the resource cache:
it receives the cache and returns its HTTP outcome together with the
cache it leaves behind, mirroring that the Python handlers read the
module-level globals and contain no assignment to them.  `HErr` carries
the HTTP status of a failed request (an `HTTPException` raised by the
handler, an exception translated by an `except` clause, or a schema
validation failure, which FastAPI surfaces as 422). -/

/-- An HTTP error outcome: status code and detail message. -/
structure HErr where
  status : Nat
  detail : String
deriving Repr, DecidableEq

/-- An error outcome with a 4xx (client error) status. -/
def isClientError {α : Type} : Except HErr α → Bool
  | .error err => decide (400 ≤ err.status) && decide (err.status < 500)
  | .ok _ => false

structure LimeResponse where
  plot_url : String
deriving Repr, DecidableEq

structure ShapResponse where
  plot_url : String
  title : String
  description : String
  where_it_helps : String
  how_to_use : String
  requirements : String
deriving Repr, DecidableEq

structure ModelDetailsResponse where
  model_summary : String
  architecture_diagram : String
deriving Repr, DecidableEq

structure SampleDetailsResponse where
  model_output : Nat
  ground_truth : String
  sample_image : String
deriving Repr, DecidableEq

structure ConvFeaturesResponse where
  feature_maps : List String
deriving Repr, DecidableEq

structure SampleComponentsResponse where
  components : List String
deriving Repr, DecidableEq

structure IntegratedGradientsResponse where
  gradients : List String
deriving Repr, DecidableEq

structure DeepLiftResponse where
  deeplift_maps : List String
deriving Repr, DecidableEq

structure ShapSingleSampleResponse where
  shap_plots : List String
deriving Repr, DecidableEq

structure ShapOverviewResponse where
  overview_plots : List String
deriving Repr, DecidableEq

/-- The vision request bodies.  These schemas live in
`api.src.core.schemas.schemas`, outside this repository snapshot; their
field lists are read off the handler bodies. -/
structure SampleDetailsRequest where
  sample_index : Int
deriving Repr, DecidableEq

structure ConvolutionalFeaturesRequest where
  sample_index : Int
  isolation : Bool
deriving Repr, DecidableEq

structure SampleComponentsRequest where
  sample_index : Int
  num_components : Int
deriving Repr, DecidableEq

structure IntegratedGradientsRequest where
  sample_index : Int
deriving Repr, DecidableEq

structure DeepLiftRequest where
  sample_index : Int
deriving Repr, DecidableEq

structure ShapSingleSampleRequest where
  sample_index : Int
deriving Repr, DecidableEq

/-- The external explainability and plotting routines the handlers call
(LIME, SHAP, captum-style attribution, matplotlib rendering).  Each is an
opaque deterministic function; figures and attribution arrays are opaque
tokens (`Nat`), rendered images are strings (the base64 payloads). -/
structure Ext where
  lime_explainer : Nat → List (List Int) → List (List Int) → Int → Nat
  renderLime : Nat → String
  shap_explainer : Nat → List (List Int) → Nat
  plot_summary : Nat → Nat
  plot_bar : Nat → Nat
  plot_waterfall : Nat → Int → Nat
  plot_heatmap : Nat → Nat
  plot_beeswarm : Nat → Nat
  blankFigure : Nat
  render : Nat → String
  model_details : Nat → List Nat → Nat × String
  renderDot : Nat → String
  sample_details : Nat → Tensor → Nat
  imshowFig : Tensor → Nat → Nat
  conv_vis_iso : Nat → Tensor → List Nat × List String
  conv_vis_extra : Nat → Tensor → List Nat × List String
  featFig : Nat → String → Nat
  find_components : Nat → Tensor → Int → List (List Nat)
  heatFig : Nat → Nat → Nat
  integrated_grad : Nat → Tensor → List Nat
  attrFig : Nat → Nat
  deeplift : Nat → Tensor → List Nat
  dlFig : Nat → Nat
  vision_shap : String → Nat → Nat → Tensor → List Nat × Nat
  shap_overview : String → Nat → Nat → Nat → List Nat
  renderPlot : Nat → String

/-- The `/` route (lines 111-119). -/
def root (c : Resources) : Except HErr (List String) × Resources :=
  (.ok ["/lime", "/shap", "/model-details", "/sample-details"], c)

/-- Handler body of `/lime/` (lines 122-150): run the LIME explainer on the
cached model and partitions, render and encode the figure. -/
def lime_explanation (c : Resources) (e : Ext) (req : LimeRequestData) :
    Except HErr LimeResponse × Resources :=
  let explanation := e.lime_explainer c.banking_model c.X_train c.X_test req.row_index
  (.ok ⟨e.renderLime explanation⟩, c)

/-- Endpoint `/lime/`: the `LimeRequest` root validator runs at parse
time; FastAPI reports its failure as a 422 client error, otherwise the
handler body runs. -/
def lime_endpoint (c : Resources) (e : Ext) (req : LimeRequestData) :
    Except HErr LimeResponse × Resources :=
  match validate_row_index req c.X_test.length with
  | .error m => (.error ⟨422, m⟩, c)
  | .ok r => lime_explanation c e r

/-- Handler body of `/shap/` (lines 155-206): compute SHAP values first,
then draw the figure selected by `plot_type`.  A `plot_type` matching no
branch draws nothing, so the handler encodes the current (blank) figure
and still succeeds.  In the waterfall branch `shap_values[data_point]`
uses Python indexing; an index that is out of range even after negative
wrap-around raises an uncaught `IndexError`, which FastAPI turns into a
500. -/
def shap_explanation (c : Resources) (e : Ext) (req : ShapRequestData) :
    Except HErr ShapResponse × Resources :=
  let shap_values := e.shap_explainer c.banking_model c.X_test
  let figOrErr : Except HErr Nat :=
    if req.plot_type = "summary" then .ok (e.plot_summary shap_values)
    else if req.plot_type = "bar" then .ok (e.plot_bar shap_values)
    else if req.plot_type = "waterfall" then
      match req.data_point with
      | none => .error ⟨400, "Data point must be specified for waterfall plot."⟩
      | some dp =>
          let n : Int := c.X_test.length
          let j := if dp < 0 then dp + n else dp
          if 0 ≤ j ∧ j < n then .ok (e.plot_waterfall shap_values j)
          else .error ⟨500, "Internal Server Error"⟩
    else if req.plot_type = "heatmap" then .ok (e.plot_heatmap shap_values)
    else if req.plot_type = "beeswarm" then .ok (e.plot_beeswarm shap_values)
    else .ok e.blankFigure
  match figOrErr with
  | .error err => (.error err, c)
  | .ok fig =>
      (.ok ⟨e.render fig, "SHAP Explanation",
        "This plot shows the SHAP explanation for the model prediction.",
        "Helps in understanding feature importance.",
        "Use this plot to see how each feature impacts the prediction.",
        "Ensure the model is properly trained and SHAP values are calculated."⟩,
       c)

/-- Endpoint `/shap/`: the `ShapRequest` root validator runs at parse
time (422 on failure), then the handler body. -/
def shap_endpoint (c : Resources) (e : Ext) (req : ShapRequestData) :
    Except HErr ShapResponse × Resources :=
  match validate_request req c.X_test.length with
  | .error m => (.error ⟨422, m⟩, c)
  | .ok r => shap_explanation c e r

/-- Handler of `/model-details/` (lines 209-233): a missing or empty
dataset is a 500; otherwise describe the model at the shape of the first
sample and render the architecture diagram. -/
def get_model_details (c : Resources) (e : Ext) :
    Except HErr ModelDetailsResponse × Resources :=
  if c.dataset.length = 0 then
    (.error ⟨500, "Dataset not loaded or is empty."⟩, c)
  else
    match c.dataset.head? with
    | none => (.error ⟨500, "Error accessing dataset"⟩, c)
    | some sample_input =>
        let md := e.model_details c.model sample_input.shape
        (.ok ⟨md.2, e.renderDot md.1⟩, c)

/-- Modelled from the spec: the vision request schemas come from
`api.src.core.schemas.schemas`, which is not part of this repository
snapshot.  Per the spec, "Row/sample index fields: valid iff
`0 <= index < size(testFeatures or visionDataset)`" and "violations are
rejected before any computation runs"; FastAPI surfaces a schema
validation failure as a 422 client error. -/
def validSampleIndex (i : Int) (n : Nat) : Bool :=
  decide (0 ≤ i) && decide (i < (n : Int))

/-- Handler body of `/sample-details/` (lines 235-269).  The whole body sits
in a `try` whose only `except` clause catches every exception into a
500 — including the `IndexError` of an out-of-range fetch. -/
def get_sample_details (c : Resources) (e : Ext) (req : SampleDetailsRequest) :
    Except HErr SampleDetailsResponse × Resources :=
  match pyIndex c.dataset req.sample_index with
  | .error _ =>
      (.error ⟨500, "Error processing sample details: IndexError"⟩, c)
  | .ok sample_input =>
      let model_output := e.sample_details c.model sample_input
      (.ok ⟨model_output, "Unknown",
            e.render (e.imshowFig sample_input model_output)⟩, c)

def sample_details_endpoint (c : Resources) (e : Ext)
    (req : SampleDetailsRequest) :
    Except HErr SampleDetailsResponse × Resources :=
  if validSampleIndex req.sample_index c.dataset.length then
    get_sample_details c e req
  else (.error ⟨422, "sample_index out of range"⟩, c)

/-- Handler body of `/convolution-features/` (lines 272-325): fetch, square
reshape to `[1, 1, H, W]`, pass the unbatched `sample_input[0]` to the
feature-visualization routine, encode each feature map.  `IndexError`
maps to 400; any other exception (including the reshape `ValueError`)
maps to 500. -/
def get_convolution_features (c : Resources) (e : Ext)
    (req : ConvolutionalFeaturesRequest) :
    Except HErr ConvFeaturesResponse × Resources :=
  match pyIndex c.dataset req.sample_index with
  | .error _ => (.error ⟨400, "Invalid sample index provided."⟩, c)
  | .ok sample_data =>
      match convFeaturesReshape sample_data with
      | .error _ =>
          (.error ⟨500, "Error processing convolution features"⟩, c)
      | .ok sample_input =>
          let vis :=
            if req.isolation then e.conv_vis_iso c.model (npGet0 sample_input)
            else e.conv_vis_extra c.model (npGet0 sample_input)
          let feature_maps :=
            (vis.1.zip vis.2).map (fun p => e.render (e.featFig p.1 p.2))
          (.ok ⟨feature_maps⟩, c)

def convolution_features_endpoint (c : Resources) (e : Ext)
    (req : ConvolutionalFeaturesRequest) :
    Except HErr ConvFeaturesResponse × Resources :=
  if validSampleIndex req.sample_index c.dataset.length then
    get_convolution_features c e req
  else (.error ⟨422, "sample_index out of range"⟩, c)

/-- Handler body of `/sample-components/` (lines 327-396): reject a
component count below 2 with a 400, fetch and canonicalize the sample,
`squeeze(0)` the batch axis (a `ValueError`, hence a 400, when the batch
axis is not 1), run `find_components`, and encode the heatmaps of its
first row (an empty result makes `heatmaps[0]` an `IndexError`, a 400).
`IndexError` and `ValueError` map to 400, `RuntimeError` to 500. -/
def get_sample_components (c : Resources) (e : Ext)
    (req : SampleComponentsRequest) :
    Except HErr SampleComponentsResponse × Resources :=
  if req.num_components < 2 then
    (.error ⟨400, "Number of components must be at least 2."⟩, c)
  else
    match pyIndex c.dataset req.sample_index with
    | .error _ => (.error ⟨400, "Invalid sample index."⟩, c)
    | .ok sample_data =>
        match sampleComponentsReshape sample_data with
        | .error (.valueError m) =>
            (.error ⟨400, "Error processing sample components: " ++ m⟩, c)
        | .error _ =>
            (.error ⟨400, "Error processing sample components"⟩, c)
        | .ok model_input =>
            match model_input.shape with
            | 1 :: rest =>
                let unbatched : Tensor := ⟨rest, model_input.data⟩
                let heatmaps :=
                  e.find_components c.model unbatched req.num_components
                match heatmaps.head? with
                | none => (.error ⟨400, "Invalid sample index."⟩, c)
                | some h0 =>
                    let images :=
                      h0.enum.map (fun p => e.render (e.heatFig p.1 p.2))
                    (.ok ⟨images⟩, c)
            | _ =>
                (.error ⟨400,
                  "Error processing sample components: cannot squeeze"⟩, c)

def sample_components_endpoint (c : Resources) (e : Ext)
    (req : SampleComponentsRequest) :
    Except HErr SampleComponentsResponse × Resources :=
  if validSampleIndex req.sample_index c.dataset.length then
    get_sample_components c e req
  else (.error ⟨422, "sample_index out of range"⟩, c)

/-- Handler body of `/integrated-gradients/` (lines 398-444): fetch,
canonicalize, `squeeze(0)`, run the integrated-gradients routine, encode
each attribution map.  `IndexError` and `ValueError` map to 400,
`RuntimeError` to 500. -/
def get_integrated_gradients (c : Resources) (e : Ext)
    (req : IntegratedGradientsRequest) :
    Except HErr IntegratedGradientsResponse × Resources :=
  match pyIndex c.dataset req.sample_index with
  | .error _ => (.error ⟨400, "Invalid sample index."⟩, c)
  | .ok sample_data =>
      match integratedGradientsReshape sample_data with
      | .error (.valueError m) =>
          (.error ⟨400, "Error processing integrated gradients: " ++ m⟩, c)
      | .error _ =>
          (.error ⟨400, "Error processing integrated gradients"⟩, c)
      | .ok model_input =>
          match model_input.shape with
          | 1 :: rest =>
              let unbatched : Tensor := ⟨rest, model_input.data⟩
              let attributions := e.integrated_grad c.model unbatched
              let images := attributions.map (fun a => e.render (e.attrFig a))
              (.ok ⟨images⟩, c)
          | _ =>
              (.error ⟨400,
                "Error processing integrated gradients: cannot squeeze"⟩, c)

def integrated_gradients_endpoint (c : Resources) (e : Ext)
    (req : IntegratedGradientsRequest) :
    Except HErr IntegratedGradientsResponse × Resources :=
  if validSampleIndex req.sample_index c.dataset.length then
    get_integrated_gradients c e req
  else (.error ⟨422, "sample_index out of range"⟩, c)

/-- Handler body of `/deep-lift/` (lines 446-508): fetch, normalize to a
single-channel input, run DeepLift, encode each map.  `IndexError` and
`ValueError` map to 400, `RuntimeError` to 500. -/
def get_deep_lift (c : Resources) (e : Ext) (req : DeepLiftRequest) :
    Except HErr DeepLiftResponse × Resources :=
  match pyIndex c.dataset req.sample_index with
  | .error _ => (.error ⟨400, "Invalid sample index."⟩, c)
  | .ok sample_data =>
      match deepLiftReshape sample_data with
      | .error .indexError => (.error ⟨400, "Invalid sample index."⟩, c)
      | .error (.valueError m) =>
          (.error ⟨400, "Error processing DeepLift: " ++ m⟩, c)
      | .error _ => (.error ⟨400, "Error processing DeepLift"⟩, c)
      | .ok reshaped_input =>
          let dl_arrays := e.deeplift c.model reshaped_input
          (.ok ⟨dl_arrays.map (fun a => e.render (e.dlFig a))⟩, c)

def deep_lift_endpoint (c : Resources) (e : Ext) (req : DeepLiftRequest) :
    Except HErr DeepLiftResponse × Resources :=
  if validSampleIndex req.sample_index c.dataset.length then
    get_deep_lift c e req
  else (.error ⟨422, "sample_index out of range"⟩, c)

/-- Handler body of `/shap-single/` (lines 510-558): fetch, ensure a
`[channels, height, width]` shape, run the single-sample vision SHAP
routine, encode its plots.  `IndexError` and `ValueError` map to 400,
`RuntimeError` to 500. -/
def get_shap_single_sample (c : Resources) (e : Ext)
    (req : ShapSingleSampleRequest) :
    Except HErr ShapSingleSampleResponse × Resources :=
  match pyIndex c.dataset req.sample_index with
  | .error _ => (.error ⟨400, "Invalid sample index."⟩, c)
  | .ok sample_data =>
      match shapSingleReshape sample_data with
      | .error (.valueError m) =>
          (.error ⟨400, "Error processing SHAP: " ++ m⟩, c)
      | .error _ => (.error ⟨400, "Error processing SHAP"⟩, c)
      | .ok sample_input =>
          let vs := e.vision_shap c.vision_data_path 10 c.model sample_input
          (.ok ⟨vs.1.map e.renderPlot⟩, c)

def shap_single_endpoint (c : Resources) (e : Ext)
    (req : ShapSingleSampleRequest) :
    Except HErr ShapSingleSampleResponse × Resources :=
  if validSampleIndex req.sample_index c.dataset.length then
    get_shap_single_sample c e req
  else (.error ⟨422, "sample_index out of range"⟩, c)

/-- Handler of `/shap-overview/` (lines 561-574): no request parameters, no
exception handling; run the overview routine and encode its plots. -/
def get_shap_overview (c : Resources) (e : Ext) :
    Except HErr ShapOverviewResponse × Resources :=
  (.ok ⟨(e.shap_overview c.vision_data_path 40 10 c.model).map e.renderPlot⟩, c)

/-! ## Concrete fixtures for witnesses -/

/-- A concrete post-startup resource cache: one vision sample, three
test rows. -/
def resEx : Resources :=
  ⟨1, 2, [⟨[2, 2], [0, 1, 2, 3]⟩], [[0], [1]], [[2], [3], [4]],
   [true, false], [true, false, true], "vision.npz"⟩

/-- A concrete external-routine record with constant routines. -/
def extEx : Ext where
  lime_explainer := fun _ _ _ _ => 0
  renderLime := fun _ => "img"
  shap_explainer := fun _ _ => 0
  plot_summary := fun _ => 0
  plot_bar := fun _ => 0
  plot_waterfall := fun _ _ => 0
  plot_heatmap := fun _ => 0
  plot_beeswarm := fun _ => 0
  blankFigure := 0
  render := fun _ => "img"
  model_details := fun _ _ => (0, "summary")
  renderDot := fun _ => "img"
  sample_details := fun _ _ => 0
  imshowFig := fun _ _ => 0
  conv_vis_iso := fun _ _ => ([0], ["conv"])
  conv_vis_extra := fun _ _ => ([0], ["conv"])
  featFig := fun _ _ => 0
  find_components := fun _ _ _ => [[0]]
  heatFig := fun _ _ => 0
  integrated_grad := fun _ _ => [0]
  attrFig := fun _ => 0
  deeplift := fun _ _ => [0]
  dlFig := fun _ => 0
  vision_shap := fun _ _ _ _ => ([0], 0)
  shap_overview := fun _ _ _ _ => [0]
  renderPlot := fun _ => "img"

/-! ## Frame lemmas: every handler returns the cache it received -/

theorem lime_endpoint_snd (c : Resources) (e : Ext) (req : LimeRequestData) :
    (lime_endpoint c e req).2 = c := by
  unfold lime_endpoint lime_explanation
  split <;> rfl

theorem shap_explanation_snd (c : Resources) (e : Ext) (req : ShapRequestData) :
    (shap_explanation c e req).2 = c := by
  unfold shap_explanation
  dsimp only
  split <;> rfl

theorem shap_endpoint_snd (c : Resources) (e : Ext) (req : ShapRequestData) :
    (shap_endpoint c e req).2 = c := by
  unfold shap_endpoint
  split
  · rfl
  · exact shap_explanation_snd c e _

theorem get_model_details_snd (c : Resources) (e : Ext) :
    (get_model_details c e).2 = c := by
  unfold get_model_details
  repeat' split
  all_goals rfl

theorem get_sample_details_snd (c : Resources) (e : Ext)
    (req : SampleDetailsRequest) : (get_sample_details c e req).2 = c := by
  unfold get_sample_details
  split <;> rfl

theorem sample_details_endpoint_snd (c : Resources) (e : Ext)
    (req : SampleDetailsRequest) : (sample_details_endpoint c e req).2 = c := by
  unfold sample_details_endpoint
  split
  · exact get_sample_details_snd c e req
  · rfl

theorem get_convolution_features_snd (c : Resources) (e : Ext)
    (req : ConvolutionalFeaturesRequest) :
    (get_convolution_features c e req).2 = c := by
  unfold get_convolution_features
  repeat' split
  all_goals rfl

theorem convolution_features_endpoint_snd (c : Resources) (e : Ext)
    (req : ConvolutionalFeaturesRequest) :
    (convolution_features_endpoint c e req).2 = c := by
  unfold convolution_features_endpoint
  split
  · exact get_convolution_features_snd c e req
  · rfl

theorem get_sample_components_snd (c : Resources) (e : Ext)
    (req : SampleComponentsRequest) :
    (get_sample_components c e req).2 = c := by
  unfold get_sample_components
  repeat' (first | rfl | split | dsimp only)

theorem sample_components_endpoint_snd (c : Resources) (e : Ext)
    (req : SampleComponentsRequest) :
    (sample_components_endpoint c e req).2 = c := by
  unfold sample_components_endpoint
  split
  · exact get_sample_components_snd c e req
  · rfl

theorem get_integrated_gradients_snd (c : Resources) (e : Ext)
    (req : IntegratedGradientsRequest) :
    (get_integrated_gradients c e req).2 = c := by
  unfold get_integrated_gradients
  repeat' split
  all_goals rfl

theorem integrated_gradients_endpoint_snd (c : Resources) (e : Ext)
    (req : IntegratedGradientsRequest) :
    (integrated_gradients_endpoint c e req).2 = c := by
  unfold integrated_gradients_endpoint
  split
  · exact get_integrated_gradients_snd c e req
  · rfl

theorem get_deep_lift_snd (c : Resources) (e : Ext) (req : DeepLiftRequest) :
    (get_deep_lift c e req).2 = c := by
  unfold get_deep_lift
  repeat' split
  all_goals rfl

theorem deep_lift_endpoint_snd (c : Resources) (e : Ext)
    (req : DeepLiftRequest) : (deep_lift_endpoint c e req).2 = c := by
  unfold deep_lift_endpoint
  split
  · exact get_deep_lift_snd c e req
  · rfl

theorem get_shap_single_sample_snd (c : Resources) (e : Ext)
    (req : ShapSingleSampleRequest) :
    (get_shap_single_sample c e req).2 = c := by
  unfold get_shap_single_sample
  repeat' split
  all_goals rfl

theorem shap_single_endpoint_snd (c : Resources) (e : Ext)
    (req : ShapSingleSampleRequest) :
    (shap_single_endpoint c e req).2 = c := by
  unfold shap_single_endpoint
  split
  · exact get_shap_single_sample_snd c e req
  · rfl

/-- C6: whatever any route handler returns, the resource cache after the
request equals the cache before it — no handler (success or failure, on
any branch) writes the cached startup resources. -/
theorem C6_cache_never_mutated (c : Resources) (e : Ext)
    (limeReq : LimeRequestData) (shapReq : ShapRequestData)
    (sdReq : SampleDetailsRequest) (cfReq : ConvolutionalFeaturesRequest)
    (scReq : SampleComponentsRequest) (igReq : IntegratedGradientsRequest)
    (dlReq : DeepLiftRequest) (ssReq : ShapSingleSampleRequest) :
    (root c).2 = c ∧
    (lime_endpoint c e limeReq).2 = c ∧
    (shap_endpoint c e shapReq).2 = c ∧
    (get_model_details c e).2 = c ∧
    (sample_details_endpoint c e sdReq).2 = c ∧
    (convolution_features_endpoint c e cfReq).2 = c ∧
    (sample_components_endpoint c e scReq).2 = c ∧
    (integrated_gradients_endpoint c e igReq).2 = c ∧
    (deep_lift_endpoint c e dlReq).2 = c ∧
    (shap_single_endpoint c e ssReq).2 = c ∧
    (get_shap_overview c e).2 = c :=
  ⟨rfl, lime_endpoint_snd c e limeReq, shap_endpoint_snd c e shapReq,
   get_model_details_snd c e, sample_details_endpoint_snd c e sdReq,
   convolution_features_endpoint_snd c e cfReq,
   sample_components_endpoint_snd c e scReq,
   integrated_gradients_endpoint_snd c e igReq,
   deep_lift_endpoint_snd c e dlReq, shap_single_endpoint_snd c e ssReq,
   rfl⟩

/-- C4: on every vision endpoint that takes a `sample_index`, a request
whose index lies outside `[0, size(visionDataset))` is answered with a
client error (a 4xx status), never a success or a server error.  (The
two remaining vision endpoints, model-details and shap-overview, take no
`sample_index`.) -/
theorem C4_out_of_range_client_error (c : Resources) (e : Ext) (i : Int)
    (iso : Bool) (nc : Int)
    (h : i < 0 ∨ (c.dataset.length : Int) ≤ i) :
    isClientError (sample_details_endpoint c e ⟨i⟩).1 = true ∧
    isClientError (convolution_features_endpoint c e ⟨i, iso⟩).1 = true ∧
    isClientError (sample_components_endpoint c e ⟨i, nc⟩).1 = true ∧
    isClientError (integrated_gradients_endpoint c e ⟨i⟩).1 = true ∧
    isClientError (deep_lift_endpoint c e ⟨i⟩).1 = true ∧
    isClientError (shap_single_endpoint c e ⟨i⟩).1 = true := by
  have hv : validSampleIndex i c.dataset.length = false := by
    simp [validSampleIndex]
    omega
  refine ⟨?_, ?_, ?_, ?_, ?_, ?_⟩
  · simp [sample_details_endpoint, hv, isClientError]
  · simp [convolution_features_endpoint, hv, isClientError]
  · simp [sample_components_endpoint, hv, isClientError]
  · simp [integrated_gradients_endpoint, hv, isClientError]
  · simp [deep_lift_endpoint, hv, isClientError]
  · simp [shap_single_endpoint, hv, isClientError]

theorem C4_out_of_range_witness :
    ((5 : Int) < 0 ∨ ((resEx.dataset.length : Int) ≤ 5)) ∧
    isClientError (sample_details_endpoint resEx extEx ⟨5⟩).1 = true ∧
    isClientError (convolution_features_endpoint resEx extEx ⟨5, true⟩).1 = true ∧
    isClientError (sample_components_endpoint resEx extEx ⟨5, 2⟩).1 = true ∧
    isClientError (integrated_gradients_endpoint resEx extEx ⟨5⟩).1 = true ∧
    isClientError (deep_lift_endpoint resEx extEx ⟨5⟩).1 = true ∧
    isClientError (shap_single_endpoint resEx extEx ⟨5⟩).1 = true :=
  ⟨by decide, C4_out_of_range_client_error resEx extEx 5 true 2 (by decide)⟩

/-- C5 counterexample: `plot_type = "pie"` is outside the enumeration,
yet `ShapRequest` validation accepts it and the `/shap/` endpoint runs
to a success response (with a blank figure), so validation does not
reject unlisted plot types before computation. -/
theorem C5_counterexample :
    (validate_request ⟨"pie", none⟩ resEx.X_test.length).isOk = true ∧
    (shap_endpoint resEx extEx ⟨"pie", none⟩).1.isOk = true ∧
    ¬ "pie" ∈ ["summary", "bar", "waterfall", "heatmap", "beeswarm"] := by
  refine ⟨rfl, rfl, ?_⟩
  decide

/-- C5 amended: `ShapRequest` validation only inspects the waterfall
case; every request whose `plot_type` is not `"waterfall"` — including
any string outside the enumeration — passes validation, reaches the
handler (which computes SHAP values before branching on `plot_type`),
and, for a `plot_type` outside the enumeration, draws no plot and
returns a success response with a blank figure. -/
theorem C5_amended_validation (pt : String) (dp : Option Int) (n : Nat)
    (c : Resources) (e : Ext)
    (h : ¬ pt ∈ ["summary", "bar", "waterfall", "heatmap", "beeswarm"]) :
    (validate_request ⟨pt, dp⟩ n).isOk = true ∧
    (shap_endpoint c e ⟨pt, dp⟩).1.isOk = true := by
  simp only [List.mem_cons, List.not_mem_nil, or_false, not_or] at h
  obtain ⟨h1, h2, h3, h4, h5⟩ := h
  have hval : ∀ m : Nat, validate_request ⟨pt, dp⟩ m = .ok ⟨pt, dp⟩ := by
    intro m
    unfold validate_request
    dsimp only
    rw [if_neg h3]
  constructor
  · rw [hval n]; rfl
  · unfold shap_endpoint
    rw [hval]
    unfold shap_explanation
    dsimp only
    rw [if_neg h1, if_neg h2, if_neg h3, if_neg h4, if_neg h5]
    rfl

theorem C5_amended_witness :
    (¬ "pie" ∈ ["summary", "bar", "waterfall", "heatmap", "beeswarm"]) ∧
    (validate_request ⟨"pie", some 7⟩ 3).isOk = true ∧
    (shap_endpoint resEx extEx ⟨"pie", some 7⟩).1.isOk = true :=
  ⟨by decide,
   (C5_amended_validation "pie" (some 7) 3 resEx extEx (by decide)).1,
   (C5_amended_validation "pie" (some 7) 3 resEx extEx (by decide)).2⟩

/-- C9: any sample-components request with `num_components < 2` is
answered with a client error (the guard inside the handler raises a 400
before fetching the sample or computing components; an out-of-range
index is already a 422 at validation). -/
theorem C9_num_components_rejected (c : Resources) (e : Ext)
    (req : SampleComponentsRequest) (h : req.num_components < 2) :
    isClientError (sample_components_endpoint c e req).1 = true := by
  unfold sample_components_endpoint
  split
  · unfold get_sample_components
    rw [if_pos h]
    rfl
  · rfl

theorem C9_num_components_witness :
    ((⟨0, 1⟩ : SampleComponentsRequest).num_components < 2) ∧
    isClientError (sample_components_endpoint resEx extEx ⟨0, 1⟩).1 = true :=
  ⟨by decide, C9_num_components_rejected resEx extEx ⟨0, 1⟩ (by decide)⟩

end XaiApi
